import Mathlib

/-!
Verification development for the SolviScope frontend (solubility profiling
and solvent screening). The TypeScript sources under the repository are
shallowly embedded in Lean: JavaScript numbers are modelled as an inductive
type over exact rationals (with NaN and signed infinities kept explicit),
JS strings as Lean strings, absent object fields and `null` as `Option`,
and the stable `Array.prototype.sort` as a stable insertion sort by a key
into a linear order.
-/

/-- Model of a JavaScript number as produced by `parseFloat` and friends:
either NaN, a signed infinity, or a finite value (modelled as an exact
rational; no floating-point rounding or overflow is modelled). -/
inductive JSNum : Type where
  | nan : JSNum
  | negInf : JSNum
  | posInf : JSNum
  | fin : ℚ → JSNum
deriving DecidableEq, Repr

namespace JSNum

/-- Model of the JS global isNaN applied to a number. -/
def isNaN : JSNum → Bool
  | .nan => true
  | _ => false

/-- True exactly on finite numbers (not NaN, not an infinity). -/
def isFinite : JSNum → Bool
  | .fin _ => true
  | _ => false

/-- Order key of a JS number inside the linear order used to model the
numeric comparisons of sort comparators: -Infinity below all rationals,
+Infinity above. NaN is filtered out before every sort in the sources, so
its key (bottom) is never relevant. -/
def key : JSNum → WithBot (WithTop ℚ)
  | .nan => ⊥
  | .negInf => ⊥
  | .posInf => ((⊤ : WithTop ℚ) : WithBot (WithTop ℚ))
  | .fin q => ((q : WithTop ℚ) : WithBot (WithTop ℚ))

/-- Model of the JS comparison n <= 0 (false on NaN). -/
def le0 : JSNum → Bool
  | .nan => false
  | .negInf => true
  | .posInf => false
  | .fin q => decide (q ≤ 0)

/-- Model of the JS comparison n > 0 (false on NaN). -/
def gt0 : JSNum → Bool
  | .nan => false
  | .negInf => false
  | .posInf => true
  | .fin q => decide (0 < q)

end JSNum

/-- A JavaScript value as it can reach the untyped helpers of the predict
route: null, undefined, a string, a number, or a boolean. -/
inductive JsValue : Type where
  | null : JsValue
  | undefined : JsValue
  | str : String → JsValue
  | num : JSNum → JsValue
  | bool : Bool → JsValue
deriving DecidableEq, Repr

/-- JS truthiness-based string choice a || b where a is an optional string
(undefined when `none`): returns b when a is undefined or the empty string. -/
def jsOrStr (a b : Option String) : Option String :=
  match a with
  | some s => if s = "" then b else some s
  | none => b

/-- JS a || d with a string default d: returns d when a is undefined or "". -/
def jsOrD (a : Option String) (d : String) : String :=
  match a with
  | some s => if s = "" then d else s
  | none => d

section JsParsing

/-- ASCII whitespace recognized by the model of the JS string-to-number
conversions (space, tab, line feed, carriage return, vertical tab,
form feed). -/
def isWS (c : Char) : Bool :=
  c == ' ' || c == '\t' || c == '\n' || c == '\r' || c == '\x0b' || c == '\x0c'

/-- Value of a list of decimal digit characters read left to right. -/
def digitsToNat (ds : List Char) : ℕ :=
  ds.foldl (fun a c => 10 * a + (c.toNat - 48)) 0

/-- Model of the JS String.prototype.trim: strip whitespace from both
ends. -/
def jsTrim (s : String) : String :=
  String.mk (((s.data.dropWhile isWS).reverse.dropWhile isWS).reverse)

/-- Split a character list at every occurrence of the separator; the JS
String.prototype.split semantics for a one-character separator (an empty
input yields one empty field). -/
def splitOnChar (sep : Char) : List Char → List (List Char)
  | [] => [[]]
  | c :: cs =>
    let r := splitOnChar sep cs
    if c == sep then [] :: r
    else
      match r with
      | [] => [[c]]
      | g :: gs => (c :: g) :: gs

/-- Model of the JS String.prototype.split with a one-character separator. -/
def jsSplit (s : String) (sep : Char) : List String :=
  (splitOnChar sep s.data).map String.mk

/-- Parse an optional exponent part (e or E, optional sign, digits) after a
decimal value q; when no well-formed exponent follows, q is returned with
the input unconsumed (longest-valid-prefix semantics of parseFloat). -/
def parseExp (q : ℚ) (cs : List Char) : ℚ × List Char :=
  match cs with
  | c :: rest =>
    if c == 'e' || c == 'E' then
      let sr : Bool × List Char :=
        match rest with
        | '+' :: r => (false, r)
        | '-' :: r => (true, r)
        | r => (false, r)
      let ds := sr.2.takeWhile Char.isDigit
      if ds.isEmpty then (q, cs)
      else (q * (10 : ℚ) ^ (if sr.1 then -(digitsToNat ds : ℤ) else (digitsToNat ds : ℤ)),
        sr.2.dropWhile Char.isDigit)
    else (q, cs)
  | [] => (q, [])

/-- Parse an unsigned decimal literal prefix (digits, optional dot and
fraction digits, optional exponent); none when no digit is present before
the exponent position, mirroring the StrDecimalLiteral grammar used by
parseFloat. Returns the value and the unconsumed suffix. -/
def parseDec (cs : List Char) : Option (ℚ × List Char) :=
  let ip := cs.takeWhile Char.isDigit
  let r1 := cs.dropWhile Char.isDigit
  match r1 with
  | '.' :: r2 =>
    let fp := r2.takeWhile Char.isDigit
    let r3 := r2.dropWhile Char.isDigit
    if ip.isEmpty && fp.isEmpty then none
    else some (parseExp ((digitsToNat ip : ℚ) + (digitsToNat fp : ℚ) / (10 : ℚ) ^ fp.length) r3)
  | _ => if ip.isEmpty then none else some (parseExp (digitsToNat ip : ℚ) r1)

/-- Model of JS parseFloat on a character list: skip leading whitespace,
read an optional sign, accept a leading Infinity, otherwise parse the
longest decimal-literal prefix; NaN when no prefix parses. -/
def parseFloatList (cs : List Char) : JSNum :=
  let cs1 := cs.dropWhile isWS
  let sp : Bool × List Char :=
    match cs1 with
    | '+' :: r => (false, r)
    | '-' :: r => (true, r)
    | r => (false, r)
  if ("Infinity".data).isPrefixOf sp.2 then
    (if sp.1 then .negInf else .posInf)
  else
    match parseDec sp.2 with
    | none => .nan
    | some qr => .fin (if sp.1 then -qr.1 else qr.1)

/-- Model of JS parseFloat on a string. -/
def parseFloatStr (s : String) : JSNum :=
  parseFloatList s.data

/-- Model of JS parseFloat applied to an arbitrary value: the argument is
converted to a string first, so a number is parsed back to itself, a
string is parsed, and null, undefined and booleans (whose string forms
start with a non-numeric character) give NaN. -/
def parseFloatJS : JsValue → JSNum
  | .str s => parseFloatStr s
  | .num n => n
  | _ => .nan

/-- True on ASCII hexadecimal digit characters. -/
def isHexDigit (c : Char) : Bool :=
  c.isDigit || ('a' ≤ c && c ≤ 'f') || ('A' ≤ c && c ≤ 'F')

/-- Value of one hexadecimal digit character. -/
def hexDigitVal (c : Char) : ℕ :=
  if c.isDigit then c.toNat - 48
  else if 'a' ≤ c && c ≤ 'f' then c.toNat - 87
  else c.toNat - 55

/-- Model of the decimal part of the JS Number() conversion on a trimmed,
nonempty character list: optional sign, then either the whole remainder is
Infinity or the whole remainder is one decimal literal; anything else is
NaN (Number, unlike parseFloat, must consume the entire string). -/
def numberBody (cs : List Char) : JSNum :=
  let sp : Bool × List Char :=
    match cs with
    | '+' :: r => (false, r)
    | '-' :: r => (true, r)
    | r => (false, r)
  if sp.2 == "Infinity".data then (if sp.1 then .negInf else .posInf)
  else
    match parseDec sp.2 with
    | some (q, []) => .fin (if sp.1 then -q else q)
    | _ => .nan

/-- Model of the JS Number() conversion of a string: empty or blank gives
0; 0x/0X, 0o/0O, 0b/0B radix literals (unsigned) are accepted when the
whole remainder consists of digits of the radix; otherwise the trimmed
string must be one signed decimal literal or a signed Infinity. -/
def jsNumberOfString (s : String) : JSNum :=
  let t := ((s.data.dropWhile isWS).reverse.dropWhile isWS).reverse
  match t with
  | [] => .fin 0
  | '0' :: c :: rest =>
    if c == 'x' || c == 'X' then
      (if !rest.isEmpty && rest.all isHexDigit then
        .fin ((rest.foldl (fun a d => 16 * a + hexDigitVal d) 0 : ℕ) : ℚ)
      else .nan)
    else if c == 'o' || c == 'O' then
      (if !rest.isEmpty && rest.all (fun d => '0' ≤ d && d ≤ '7') then
        .fin ((rest.foldl (fun a d => 8 * a + (d.toNat - 48)) 0 : ℕ) : ℚ)
      else .nan)
    else if c == 'b' || c == 'B' then
      (if !rest.isEmpty && rest.all (fun d => d == '0' || d == '1') then
        .fin ((rest.foldl (fun a d => 2 * a + (d.toNat - 48)) 0 : ℕ) : ℚ)
      else .nan)
    else numberBody t
  | _ => numberBody t

end JsParsing

namespace PredictRoute

/-- Embedding of the parseNumber helper of the predict API route: null,
undefined and the empty string give null, otherwise the value is run
through parseFloat and NaN results are mapped to null. -/
def parseNumber (value : JsValue) : Option JSNum :=
  if value = .null ∨ value = .undefined ∨ value = .str "" then none
  else
    match parseFloatJS value with
    | .nan => none
    | n => some n

end PredictRoute

section Classifiers

namespace SolubilityUtils

/-- Embedding of getSolubilityClassification from
frontend/lib/solubilityUtils.ts: the 5-tier label classifier. -/
def getSolubilityClassification (logS : ℚ) : String :=
  if logS ≥ 1/2 then "Excellent"
  else if logS ≥ -1 then "Good"
  else if logS ≥ -3 then "Moderate"
  else if logS ≥ -5 then "Poorly Soluble"
  else "Practically Insoluble"

end SolubilityUtils

namespace Constants

/-- One entry of the CMC_SCALE table of frontend/lib/constants.ts. -/
structure CMCEntry where
  label : String
  color : String
  textColor : String
deriving DecidableEq, Repr

/-- CMC_SCALE entry for the key "-6 to -5". -/
def scaleNeg6Neg5 : CMCEntry :=
  ⟨"Practically Insoluble", "bg-red-600", "text-red-600"⟩

/-- CMC_SCALE entry for the key "-5 to -3". -/
def scaleNeg5Neg3 : CMCEntry :=
  ⟨"Poorly Soluble", "bg-orange-500", "text-orange-500"⟩

/-- CMC_SCALE entry for the key "-3 to -1". -/
def scaleNeg3Neg1 : CMCEntry :=
  ⟨"Moderate", "bg-yellow-500", "text-yellow-500"⟩

/-- CMC_SCALE entry for the key "-1 to 0.5". -/
def scaleNeg1Half : CMCEntry :=
  ⟨"Good", "bg-green-400", "text-green-400"⟩

/-- CMC_SCALE entry for the key "0.5+". -/
def scaleHalfPlus : CMCEntry :=
  ⟨"Excellent", "bg-green-700", "text-green-700"⟩

/-- Embedding of getCMCStatus from frontend/lib/constants.ts, including its
default fallback branch. -/
def getCMCStatus (logS : ℚ) : CMCEntry :=
  if logS ≥ -6 ∧ logS < -5 then scaleNeg6Neg5
  else if logS ≥ -5 ∧ logS < -3 then scaleNeg5Neg3
  else if logS ≥ -3 ∧ logS < -1 then scaleNeg3Neg1
  else if logS ≥ -1 ∧ logS ≤ 1/2 then scaleNeg1Half
  else if logS > 1/2 then scaleHalfPlus
  else scaleNeg6Neg5

end Constants

namespace MoleculeTable

/-- Embedding of getSolubilityClass from
frontend/components/molecule-table.tsx (returns a CSS class name). -/
def getSolubilityClass (logs : ℚ) : String :=
  if logs ≥ 1/2 then "solubility-excellent"
  else if logs ≥ -1 then "solubility-good"
  else if logs ≥ -3 then "solubility-moderate"
  else if logs ≥ -5 then "solubility-poor"
  else "solubility-insoluble"

/-- Embedding of the abs_error valueGetter of
frontend/components/molecule-table.tsx: the absolute error is computed only
when both actual_logs and predicted_logs are non-null, and is null
otherwise (rendered as the "N/A" marker by the value formatter). -/
def absErrorValue (predicted actual : Option ℚ) : Option ℚ :=
  match actual, predicted with
  | some a, some p => some |p - a|
  | _, _ => none

end MoleculeTable

namespace ExcelExport

/-- Return type of getSolubilityClass in
frontend/components/excel-export.tsx. -/
structure SolClass where
  label : String
  bgColor : String
  fgColor : String
deriving DecidableEq, Repr

/-- Embedding of getSolubilityClass from
frontend/components/excel-export.tsx. -/
def getSolubilityClass (logs : ℚ) : SolClass :=
  if logs ≥ 1/2 then ⟨"Excellent", "FF006400", "FFFFFFFF"⟩
  else if logs ≥ -1 then ⟨"Good", "FF90EE90", "FF166534"⟩
  else if logs ≥ -3 then ⟨"Moderate", "FFFFD700", "FF854D0E"⟩
  else if logs ≥ -5 then ⟨"Poorly Soluble", "FFFF8C00", "FF9A3412"⟩
  else ⟨"Practically Insoluble", "FF8B0000", "FFFFFFFF"⟩

/-- Embedding of the absError computation of exportSolubilityPredictions in
frontend/components/excel-export.tsx: Math.abs(predicted - actual) when
both actual_logs and predicted_logs are non-null, null otherwise (rendered
as "N/A" in the sheet). -/
def absError (predicted actual : Option ℚ) : Option ℚ :=
  match actual, predicted with
  | some a, some p => some |p - a|
  | _, _ => none

end ExcelExport

namespace ViewToggle

/-- Embedding of getSolubilityClass from
frontend/components/view-toggle.tsx (solvent screening table). -/
def getSolubilityClass (logs : ℚ) : String :=
  if logs ≥ 1/2 then "solubility-excellent"
  else if logs ≥ -1 then "solubility-good"
  else if logs ≥ -3 then "solubility-moderate"
  else if logs ≥ -5 then "solubility-poor"
  else "solubility-insoluble"

end ViewToggle

/-- Correspondence table between the five tier labels and the CSS class
names used by the table components; used to state that the CSS-class
classifiers select the same tier as the label classifiers. -/
def cssOfLabel (label : String) : String :=
  if label = "Excellent" then "solubility-excellent"
  else if label = "Good" then "solubility-good"
  else if label = "Moderate" then "solubility-moderate"
  else if label = "Poorly Soluble" then "solubility-poor"
  else if label = "Practically Insoluble" then "solubility-insoluble"
  else ""

end Classifiers

namespace PredictRoute

/-- A CSV row as parsed by Papa.parse with header mode: an association of
column names to string values; a missing key models an absent column
(the field reads as undefined). Keys are unique, so lookup is first-match. -/
def CsvRow := List (String × String)

/-- Field access csvRow[k] on a parsed CSV row. -/
def csvGet (row : CsvRow) (k : String) : Option String :=
  (row.find? (fun p => p.1 == k)).map (fun p => p.2)

/-- One element of the backendPayload array built by the predict route. -/
structure PayloadRow where
  solute_smiles : Option String
  solvent_smiles : Option String
  temperature_k : JSNum
deriving DecidableEq, Repr

/-- Embedding of the per-row backendPayload construction of the predict
route: SMILES fields fall through the three recognized header spellings,
and the temperature is parseFloat of the first truthy value among
Temperature_K, temperature_k and the literal default "298.15". -/
def buildPayloadRow (row : CsvRow) : PayloadRow :=
  { solute_smiles := jsOrStr (csvGet row "SMILES_Solute")
      (jsOrStr (csvGet row "solute_smiles") (csvGet row "Solute_SMILES"))
    solvent_smiles := jsOrStr (csvGet row "SMILES_Solvent")
      (jsOrStr (csvGet row "solvent_smiles") (csvGet row "Solvent_SMILES"))
    temperature_k := parseFloatStr (jsOrD (jsOrStr (csvGet row "Temperature_K")
      (csvGet row "temperature_k")) "298.15") }

/-- Embedding of the backendPayload array: csvData.map of the row builder. -/
def backendPayload (csvData : List CsvRow) : List PayloadRow :=
  csvData.map buildPayloadRow

/-- One prediction result coming back from the model service. -/
structure Pred where
  predicted_logs : ℚ
  temperature_k : ℚ
  warning : Option String
deriving DecidableEq, Repr

/-- One merged output row of the predict route. -/
structure MergedRow where
  solute_smiles : Option String
  solvent_smiles : Option String
  solvent_name : Option String
  temperature_k : ℚ
  predicted_logs : ℚ
  warning : Option String
  compound_name : Option String
  cas : Option String
  pubchem_cid : Option JSNum
  fda_approved : Option String
  source : Option String
  actual_logs : Option JSNum
deriving DecidableEq, Repr

/-- View of an optional string as the JsValue reaching parseNumber. -/
def toJsVal : Option String → JsValue
  | some s => .str s
  | none => .undefined

/-- Embedding of the merge of one prediction with its CSV row and payload
row in the predict route response construction. -/
def mergeRow (pred : Pred) (csvRow : CsvRow) (pay : PayloadRow) : MergedRow :=
  { solute_smiles := pay.solute_smiles
    solvent_smiles := pay.solvent_smiles
    solvent_name := jsOrStr (jsOrStr (csvGet csvRow "Solvent_Name")
      (jsOrStr (csvGet csvRow "Solvent") (csvGet csvRow "solvent_name"))) none
    temperature_k := pred.temperature_k
    predicted_logs := pred.predicted_logs
    warning := pred.warning
    compound_name := jsOrStr (jsOrStr (csvGet csvRow "Compound_Name")
      (csvGet csvRow "compound_name")) none
    cas := jsOrStr (jsOrStr (csvGet csvRow "CAS") (csvGet csvRow "cas")) none
    pubchem_cid := parseNumber (toJsVal (jsOrStr (csvGet csvRow "PubChem_CID")
      (csvGet csvRow "pubchem_cid")))
    fda_approved := jsOrStr (jsOrStr (csvGet csvRow "FDA_Approved")
      (csvGet csvRow "fda_approved")) none
    source := jsOrStr (jsOrStr (csvGet csvRow "Source") (csvGet csvRow "source")) none
    actual_logs := parseNumber (toJsVal (jsOrStr (csvGet csvRow "LogS(mol/L)")
      (csvGet csvRow "actual_logs"))) }

/-- Index-tracking walk of predictions.map((pred, index) => ...): accessing
a payload index past the end of the array would throw in JS (reading a
field of undefined), modelled as none for the whole result. -/
def mergeGo (csvData : List CsvRow) (payload : List PayloadRow) :
    List Pred → ℕ → Option (List MergedRow)
  | [], _ => some []
  | p :: ps, i =>
    match payload.get? i with
    | none => none
    | some pay =>
      (mergeGo csvData payload ps (i + 1)).map
        (fun rest => mergeRow p ((csvData.get? i).getD []) pay :: rest)

/-- Embedding of the mergedData construction of the predict route. -/
def mergedData (predictions : List Pred) (csvData : List CsvRow) :
    Option (List MergedRow) :=
  mergeGo csvData (backendPayload csvData) predictions 0

end PredictRoute

section StableSort

variable {α : Type} {β : Type} [LinearOrder β]

/-- Stable insertion used to model JS Array.prototype.sort with a
numeric comparator derived from a key: the inserted element passes exactly
the elements with strictly smaller key, landing before the first element
whose key is at least its own, so elements with equal keys keep their
original relative order. -/
def insertKey (κ : α → β) (x : α) : List α → List α
  | [] => [x]
  | y :: ys => if κ y < κ x then y :: insertKey κ x ys else x :: y :: ys

/-- Stable insertion sort by key, ascending; extensionally equal to the
stable sort of the JS runtime for a comparator that subtracts keys. -/
def isortKey (κ : α → β) : List α → List α
  | [] => []
  | x :: xs => insertKey κ x (isortKey κ xs)


end StableSort

namespace ViewToggle

/-- Attempt to match the regex piece of normalizeSolventName at the head
of the list: optional whitespace, an opening parenthesis, a shortest run
of non-line-terminator characters, a closing parenthesis, then trailing
whitespace; returns the unconsumed rest on success. -/
def parenMatch (l : List Char) : Option (List Char) :=
  match l.dropWhile isWS with
  | '(' :: r =>
    match r.dropWhile (fun c => !(c == ')' || c == '\n' || c == '\r')) with
    | ')' :: r3 => some (r3.dropWhile isWS)
    | _ => none
  | _ => none

/-- Left-to-right global removal of parenthesized groups (the replace of
the pattern backslash-s-star, open paren, lazy dot-star, close paren,
backslash-s-star by the empty string): at each position either a match is
removed or one character is emitted. Fuel bounds the recursion; every step
consumes at least one character, so fuel equal to the length suffices. -/
def rmParens : ℕ → List Char → List Char
  | 0, l => l
  | _ + 1, [] => []
  | fuel + 1, c :: cs =>
    match parenMatch (c :: cs) with
    | some rest => rmParens fuel rest
    | none => c :: rmParens fuel cs

/-- Embedding of normalizeSolventName from view-toggle.tsx: lowercase,
remove parenthesized groups with surrounding whitespace, strip every
character outside a-z0-9, and trim. -/
def normalizeSolventName (name : String) : String :=
  let l := name.data.map Char.toLower
  jsTrim (String.mk ((rmParens l.length l).filter
    (fun c => c.isLower || c.isDigit)))

/-- One value of a heatmap_data cell as delivered in the JSON response:
a number, a string, or null. -/
inductive CellVal : Type where
  | num : ℚ → CellVal
  | str : String → CellVal
  | null : CellVal
deriving DecidableEq, Repr

/-- One heatmap_data item: the solvent display name plus the remaining
keyed cells (temperature columns keyed by their stringified value). -/
structure HeatRow where
  solvent : String
  cells : List (String × CellVal)
deriving DecidableEq, Repr

/-- Property access item[k] on the keyed cells of a heatmap row. -/
def objGet (cells : List (String × CellVal)) (k : String) : Option CellVal :=
  (cells.find? (fun p => p.1 == k)).map (fun p => p.2)

/-- One entry of the rankings array of a screening response. -/
structure SolventRanking where
  rank : ℕ
  solvent_name : String
  solvent_smiles : String
  predicted_logs : ℚ
  structure_base64 : Option String
deriving DecidableEq, Repr

/-- The screening result object consumed by the solvent screening view. -/
structure ScreeningResult where
  solute_smiles : String
  solute_name : Option String
  ranking_temperature_k : ℚ
  rankings : Option (List SolventRanking)
  temperatures : Option (List JSNum)
  heatmap_data : Option (List HeatRow)
  static_heatmap_base64 : String
  dynamic_heatmap_base64 : String

/-- Embedding of the predicted_logs extraction of filteredRankings:
a numeric cell is used as is, any other value is passed to parseFloat
after the JS or-default with the string "0" (so a missing or null cell
reads as 0, and an unparseable string cell reads as NaN). -/
def extractLogS (item : HeatRow) (tempKey : String) : JSNum :=
  match objGet item.cells tempKey with
  | some (.num q) => .fin q
  | some (.str s) => parseFloatStr (if s = "" then "0" else s)
  | some .null => parseFloatStr "0"
  | none => parseFloatStr "0"

/-- The name and structure data that filteredRankings takes over from the
rankings array after matching by normalized solvent name. -/
structure RankInfo where
  solvent_name : String
  solvent_smiles : String
  structure_base64 : Option String
deriving DecidableEq, Repr

/-- Lookup in a JS Map built from a list of key-value pairs: a duplicate
key overwrites an earlier one, so the last binding wins. -/
def jsMapGet {γ : Type} (m : List (String × γ)) (k : String) : Option γ :=
  (m.reverse.find? (fun p => p.1 == k)).map (fun p => p.2)

/-- Embedding of the rankingsMap construction of filteredRankings. -/
def mkRankingsMap (rankings : List SolventRanking) : List (String × RankInfo) :=
  rankings.map (fun r => (normalizeSolventName r.solvent_name,
    ⟨r.solvent_name, r.solvent_smiles, r.structure_base64⟩))

/-- One row of the rankingsWithLogS intermediate array. -/
structure Row where
  solvent_name : String
  solvent_smiles : String
  structure_base64 : Option String
  predicted_logs : JSNum
deriving DecidableEq, Repr

/-- Embedding of the per-item row construction inside filteredRankings. -/
def mkRow (rmap : List (String × RankInfo)) (tempKey : String)
    (item : HeatRow) : Row :=
  let rd := jsMapGet rmap (normalizeSolventName item.solvent)
  { solvent_name := jsOrD (rd.map (fun d => d.solvent_name)) item.solvent
    solvent_smiles := jsOrD (rd.map (fun d => d.solvent_smiles)) ""
    structure_base64 := rd.bind (fun d => d.structure_base64)
    predicted_logs := extractLogS item tempKey }

/-- Embedding of the rankingsWithLogS array of filteredRankings: map the
heatmap rows to rows carrying the predicted LogS at the selected
temperature, then drop the rows whose value is NaN. -/
def rankingsWithLogS (res : ScreeningResult) (tempKey : String) : List Row :=
  ((res.heatmap_data.getD []).map
    (mkRow (mkRankingsMap (res.rankings.getD [])) tempKey)).filter
    (fun r => !r.predicted_logs.isNaN)

/-- Sort key of the descending-by-LogS comparator (b.predicted_logs -
a.predicted_logs) of filteredRankings: the order dual of the numeric key. -/
def sortKeyDesc (r : Row) : (WithBot (WithTop ℚ))ᵒᵈ :=
  OrderDual.toDual r.predicted_logs.key

/-- One output row of filteredRankings: the row data plus its 1-based rank. -/
structure Ranked extends Row where
  rank : ℕ
deriving DecidableEq, Repr

/-- Embedding of the final map of filteredRankings attaching rank =
index + 1 to the sorted rows. -/
def attachRanks : ℕ → List Row → List Ranked
  | _, [] => []
  | i, r :: rs => ⟨r, i + 1⟩ :: attachRanks (i + 1) rs

/-- View of a rankings entry in the shape of a filteredRankings output
row, used by the fallback branch that returns results.rankings directly. -/
def toRanked (r : SolventRanking) : Ranked :=
  ⟨⟨r.solvent_name, r.solvent_smiles, r.structure_base64, .fin r.predicted_logs⟩, r.rank⟩

/-- Embedding of filteredRankings from view-toggle.tsx: with populated
heatmap data, build rows at the selected temperature key, drop NaN rows,
sort descending by predicted LogS with the stable runtime sort, and attach
ranks 1..N; otherwise fall back to the rankings array of the response. -/
def filteredRankings (res : ScreeningResult) (tempKey : String) : List Ranked :=
  match res.heatmap_data with
  | some (_ :: _) =>
    attachRanks 0 (isortKey sortKeyDesc (rankingsWithLogS res tempKey))
  | _ => (res.rankings.getD []).map toRanked

/-- Embedding of availableTemperatures from view-toggle.tsx: the
temperatures field when present, else the numeric keys of the first
heatmap row sorted ascending, else the default grid of 21 points from
250 K to 450 K in steps of 10 K. -/
def availableTemperatures (res : ScreeningResult) : List JSNum :=
  match res.temperatures with
  | some ts => ts
  | none =>
    match res.heatmap_data with
    | some (firstItem :: _) =>
      isortKey JSNum.key
        ((("solvent" :: firstItem.cells.map (fun p => p.1)).filter
          (fun k => !(k == "solvent") && !(jsNumberOfString k).isNaN)).map
          jsNumberOfString)
    | _ => (List.range 21).map (fun i => JSNum.fin ((250 + i * 10 : ℕ) : ℚ))

end ViewToggle

namespace SolventsRoute

/-- Request body of the solvents API route. -/
structure Body where
  solute_smiles : Option String
  solute_name : Option String
deriving DecidableEq, Repr

/-- Observable outcome of the solvents route handler: an error response or
a forwarded backend call carrying the request payload. -/
inductive Action : Type where
  | respondError : ℕ → String → Action
  | fetchBackend : String → Option String → Action
deriving DecidableEq, Repr

/-- Embedding of the POST handler of the solvents API route: a falsy
solute_smiles (absent or empty) is rejected with a 400 response before any
backend request; otherwise the request is forwarded to the backend
/solvents endpoint with solute_name defaulted to null. -/
def post (body : Body) : Action :=
  match body.solute_smiles with
  | none => .respondError 400 "No solute SMILES provided"
  | some s =>
    if s = "" then .respondError 400 "No solute SMILES provided"
    else .fetchBackend s (jsOrStr body.solute_name none)

end SolventsRoute

namespace BatchSmilesInput

/-- Observable outcome of the solvent-screening branch of handleProcess in
the batch input component: a thrown error or the /api/solvents call. -/
inductive ScreenAction : Type where
  | error : String → ScreenAction
  | fetchSolvents : String → Option String → ScreenAction
deriving DecidableEq, Repr

/-- True exactly on the error outcome. -/
def isError : ScreenAction → Bool
  | .error _ => true
  | _ => false

/-- Embedding of the CSV header/first-row split of handleProcess: trim the
file, split into lines, and require at least two lines; headers and the
first data row are comma-split and trimmed fieldwise. -/
def parseFirstRow (text : String) : Option (List String × List String) :=
  match jsSplit (jsTrim text) '\n' with
  | l0 :: l1 :: _ =>
    some ((jsSplit l0 ',').map jsTrim, (jsSplit l1 ',').map jsTrim)
  | _ => none

/-- Embedding of the rowData object construction: each header is assigned
the value at its index, defaulting to the empty string past the end of the
first row. -/
def rowDataOf : List String → List String → List (String × String)
  | [], _ => []
  | h :: hs, [] => (h, "") :: rowDataOf hs []
  | h :: hs, v :: vs => (h, v) :: rowDataOf hs vs

/-- Property lookup on the rowData object: a later assignment to the same
key overwrites an earlier one, so the last occurrence wins. -/
def rowGet (rowData : List (String × String)) (k : String) : Option String :=
  (rowData.reverse.find? (fun p => p.1 == k)).map (fun p => p.2)

/-- Embedding of the solvent-screening branch of handleProcess: fewer than
two CSV lines or a falsy solute SMILES throw before any request; otherwise
the /api/solvents call is made with the extracted solute and name. -/
def handleProcessScreen (text : String) : ScreenAction :=
  match parseFirstRow text with
  | none => .error "CSV file must have at least one data row"
  | some hv =>
    let rowData := rowDataOf hv.1 hv.2
    let soluteSmiles := jsOrStr (rowGet rowData "Solute_SMILES")
      (jsOrStr (rowGet rowData "solute_smiles") (rowGet rowData "SMILES_Solute"))
    let soluteName := jsOrStr (rowGet rowData "Solute_Name")
      (jsOrStr (rowGet rowData "solute_name")
        (jsOrStr (rowGet rowData "Compound_Name") none))
    match soluteSmiles with
    | none => .error "CSV must contain a column named \x27Solute_SMILES\x27, \x27solute_smiles\x27, or \x27SMILES_Solute\x27"
    | some s =>
      if s = "" then
        .error "CSV must contain a column named \x27Solute_SMILES\x27, \x27solute_smiles\x27, or \x27SMILES_Solute\x27"
      else .fetchSolvents s soluteName

end BatchSmilesInput

namespace SingleSmilesInput

/-- The two tasks served by the single input form. -/
inductive Task : Type where
  | solpred : Task
  | solscreen : Task
deriving DecidableEq, Repr

/-- Observable outcome of the validation prefix of handleSubmit: one of
the three toast-and-return rejections, or the submission proceeding. -/
inductive Outcome : Type where
  | errorSoluteSmiles : Outcome
  | errorSolventSmiles : Outcome
  | errorTemperature : Outcome
  | submit : Outcome
deriving DecidableEq, Repr

/-- Embedding of the validation prefix of handleSubmit in
single-smiles-input.tsx: empty trimmed solute SMILES aborts; for the
solpred task an empty trimmed solvent SMILES aborts; for the solpred task
a temperature whose parseFloat is NaN or not greater than zero aborts;
otherwise the request is submitted. -/
def handleSubmit (task : Task) (soluteSmiles solventSmiles temperature : String) :
    Outcome :=
  if jsTrim soluteSmiles = "" then .errorSoluteSmiles
  else if task = .solpred ∧ jsTrim solventSmiles = "" then .errorSolventSmiles
  else if task = .solpred ∧
      ((parseFloatStr temperature).isNaN || (parseFloatStr temperature).le0) = true then
    .errorTemperature
  else .submit

end SingleSmilesInput

/-- Concrete 20-row heatmap panel used to witness the ranking properties:
solvents S0..S19 with integer LogS values 0, 1, 2 repeating (so ties are
present). -/
def w3hd : List ViewToggle.HeatRow :=
  (List.range 20).map (fun i =>
    { solvent := "S" ++ Nat.repr i,
      cells := [("300", ViewToggle.CellVal.num ((i % 3 : ℕ) : ℚ))] })

/-- Concrete screening result wrapping the witness panel. -/
def w3res : ViewToggle.ScreeningResult :=
  { solute_smiles := "CCO", solute_name := none, ranking_temperature_k := 300,
    rankings := some [], temperatures := none, heatmap_data := some w3hd,
    static_heatmap_base64 := "", dynamic_heatmap_base64 := "" }

/-- Concrete screening result with neither a temperatures field nor
heatmap data, used to witness the default temperature grid. -/
def w6res : ViewToggle.ScreeningResult :=
  { solute_smiles := "CCO", solute_name := none, ranking_temperature_k := 300,
    rankings := none, temperatures := none, heatmap_data := none,
    static_heatmap_base64 := "", dynamic_heatmap_base64 := "" }


section ClassifierTheorems

/-- Helper: the excel-export classifier label agrees with the
solubilityUtils classifier everywhere (identical threshold structure). -/
lemma excel_label_eq (v : ℚ) :
    (ExcelExport.getSolubilityClass v).label =
      SolubilityUtils.getSolubilityClassification v := by
  unfold ExcelExport.getSolubilityClass SolubilityUtils.getSolubilityClassification
  split_ifs <;> rfl

/-- Helper: the molecule-table CSS classifier selects the tier of the
solubilityUtils classifier everywhere. -/
lemma mt_css_eq (v : ℚ) :
    MoleculeTable.getSolubilityClass v =
      cssOfLabel (SolubilityUtils.getSolubilityClassification v) := by
  unfold MoleculeTable.getSolubilityClass SolubilityUtils.getSolubilityClassification
    cssOfLabel
  split_ifs <;> simp_all

/-- Helper: the view-toggle CSS classifier selects the tier of the
solubilityUtils classifier everywhere. -/
lemma vt_css_eq (v : ℚ) :
    ViewToggle.getSolubilityClass v =
      cssOfLabel (SolubilityUtils.getSolubilityClassification v) := by
  unfold ViewToggle.getSolubilityClass SolubilityUtils.getSolubilityClassification
    cssOfLabel
  split_ifs <;> simp_all

/-- C1: the 5-tier classifier of solubilityUtils.ts returns Excellent iff
logS >= 0.5, Good iff -1 <= logS < 0.5, Moderate iff -3 <= logS < -1,
Poorly Soluble iff -5 <= logS < -3 and Practically Insoluble iff
logS < -5; the excel-export classifier produces the same label, and the
molecule-table CSS classifier selects the same tier, at every value. -/
theorem getSolubilityClassification_tiers (v : ℚ) :
    (SolubilityUtils.getSolubilityClassification v = "Excellent" ↔ 1/2 ≤ v) ∧
    (SolubilityUtils.getSolubilityClassification v = "Good" ↔ -1 ≤ v ∧ v < 1/2) ∧
    (SolubilityUtils.getSolubilityClassification v = "Moderate" ↔ -3 ≤ v ∧ v < -1) ∧
    (SolubilityUtils.getSolubilityClassification v = "Poorly Soluble" ↔ -5 ≤ v ∧ v < -3) ∧
    (SolubilityUtils.getSolubilityClassification v = "Practically Insoluble" ↔ v < -5) ∧
    (ExcelExport.getSolubilityClass v).label = SolubilityUtils.getSolubilityClassification v ∧
    MoleculeTable.getSolubilityClass v =
      cssOfLabel (SolubilityUtils.getSolubilityClassification v) := by
  refine ⟨?_, ?_, ?_, ?_, ?_, excel_label_eq v, mt_css_eq v⟩ <;>
  · unfold SolubilityUtils.getSolubilityClassification
    split_ifs <;> simp_all <;>
      first
        | linarith
        | (intro hx; linarith)

/-- C1 witness: the tiers characterization instantiated at logS = 0.5. -/
theorem getSolubilityClassification_tiers_witness :
    SolubilityUtils.getSolubilityClassification (1/2) = "Excellent" := by
  exact (getSolubilityClassification_tiers (1/2)).1.mpr (by norm_num)

/-- Helper: getCMCStatus on values below -5 yields the insoluble entry
(first branch or fallback). -/
lemma cmc_insoluble (v : ℚ) (h : v < -5) :
    Constants.getCMCStatus v = Constants.scaleNeg6Neg5 := by
  unfold Constants.getCMCStatus
  rcases le_or_lt (-6) v with h6 | h6
  · rw [if_pos ⟨h6, h⟩]
  · rw [if_neg (fun hc => absurd hc.1 (by linarith)),
      if_neg (fun hc => absurd hc.1 (by linarith)),
      if_neg (fun hc => absurd hc.1 (by linarith)),
      if_neg (fun hc => absurd hc.1 (by linarith)),
      if_neg (by intro hc; exact absurd hc (by push_neg; linarith))]

/-- Helper: getCMCStatus on [-5, -3) yields the poorly soluble entry. -/
lemma cmc_poor (v : ℚ) (h1 : -5 ≤ v) (h2 : v < -3) :
    Constants.getCMCStatus v = Constants.scaleNeg5Neg3 := by
  unfold Constants.getCMCStatus
  rw [if_neg (fun hc => absurd hc.2 (by linarith)), if_pos ⟨h1, h2⟩]

/-- Helper: getCMCStatus on [-3, -1) yields the moderate entry. -/
lemma cmc_moderate (v : ℚ) (h1 : -3 ≤ v) (h2 : v < -1) :
    Constants.getCMCStatus v = Constants.scaleNeg3Neg1 := by
  unfold Constants.getCMCStatus
  rw [if_neg (fun hc => absurd hc.2 (by linarith)),
    if_neg (fun hc => absurd hc.2 (by linarith)), if_pos ⟨h1, h2⟩]

/-- Helper: getCMCStatus on [-1, 0.5] yields the good entry. -/
lemma cmc_good (v : ℚ) (h1 : -1 ≤ v) (h2 : v ≤ 1/2) :
    Constants.getCMCStatus v = Constants.scaleNeg1Half := by
  unfold Constants.getCMCStatus
  rw [if_neg (fun hc => absurd hc.2 (by linarith)),
    if_neg (fun hc => absurd hc.2 (by linarith)),
    if_neg (fun hc => absurd hc.2 (by linarith)), if_pos ⟨h1, h2⟩]

/-- Helper: getCMCStatus above 0.5 yields the excellent entry. -/
lemma cmc_excellent (v : ℚ) (h : 1/2 < v) :
    Constants.getCMCStatus v = Constants.scaleHalfPlus := by
  unfold Constants.getCMCStatus
  rw [if_neg (fun hc => absurd hc.2 (by linarith)),
    if_neg (fun hc => absurd hc.2 (by linarith)),
    if_neg (fun hc => absurd hc.2 (by linarith)),
    if_neg (fun hc => absurd hc.2 (by linarith)), if_pos h]

/-- Helper: the solubilityUtils classifier evaluated on each region. -/
lemma cls_insoluble (v : ℚ) (h : v < -5) :
    SolubilityUtils.getSolubilityClassification v = "Practically Insoluble" := by
  unfold SolubilityUtils.getSolubilityClassification
  rw [if_neg (by push_neg; linarith), if_neg (by push_neg; linarith),
    if_neg (by push_neg; linarith), if_neg (by push_neg; linarith)]

/-- Helper: the solubilityUtils classifier on [-5, -3). -/
lemma cls_poor (v : ℚ) (h1 : -5 ≤ v) (h2 : v < -3) :
    SolubilityUtils.getSolubilityClassification v = "Poorly Soluble" := by
  unfold SolubilityUtils.getSolubilityClassification
  rw [if_neg (by push_neg; linarith), if_neg (by push_neg; linarith),
    if_neg (by push_neg; linarith), if_pos h1]

/-- Helper: the solubilityUtils classifier on [-3, -1). -/
lemma cls_moderate (v : ℚ) (h1 : -3 ≤ v) (h2 : v < -1) :
    SolubilityUtils.getSolubilityClassification v = "Moderate" := by
  unfold SolubilityUtils.getSolubilityClassification
  rw [if_neg (by push_neg; linarith), if_neg (by push_neg; linarith), if_pos h1]

/-- Helper: the solubilityUtils classifier on [-1, 0.5). -/
lemma cls_good (v : ℚ) (h1 : -1 ≤ v) (h2 : v < 1/2) :
    SolubilityUtils.getSolubilityClassification v = "Good" := by
  unfold SolubilityUtils.getSolubilityClassification
  rw [if_neg (by push_neg; linarith), if_pos h1]

/-- Helper: the solubilityUtils classifier on [0.5, inf). -/
lemma cls_excellent (v : ℚ) (h : 1/2 ≤ v) :
    SolubilityUtils.getSolubilityClassification v = "Excellent" := by
  unfold SolubilityUtils.getSolubilityClassification
  rw [if_pos h]

/-- C2 counterexample: at logS = 0.5 the CMC-scale classifier of
constants.ts returns the Good tier while the classifier of
solubilityUtils.ts returns Excellent, so the implementations do not agree
at the boundary value 0.5. -/
theorem getCMCStatus_disagrees_at_half :
    (Constants.getCMCStatus (1/2)).label = "Good" ∧
    SolubilityUtils.getSolubilityClassification (1/2) = "Excellent" ∧
    (Constants.getCMCStatus (1/2)).label ≠
      SolubilityUtils.getSolubilityClassification (1/2) := by
  have h1 : (Constants.getCMCStatus (1/2)).label = "Good" := by
    rw [cmc_good (1/2) (by norm_num) (by norm_num)]; rfl
  have h2 : SolubilityUtils.getSolubilityClassification (1/2) = "Excellent" :=
    cls_excellent (1/2) (by norm_num)
  refine ⟨h1, h2, ?_⟩
  rw [h1, h2]; decide

/-- C2 amended: away from the single boundary value 0.5 (where getCMCStatus
returns Good but the other classifiers return Excellent), all tier
classifiers agree: the CMC status label equals the solubilityUtils label,
and the solvent-screening CSS classifier selects the same tier. -/
theorem classifiers_agree_off_half (v : ℚ) (h : v ≠ 1/2) :
    (Constants.getCMCStatus v).label = SolubilityUtils.getSolubilityClassification v ∧
    ViewToggle.getSolubilityClass v =
      cssOfLabel (SolubilityUtils.getSolubilityClassification v) := by
  refine ⟨?_, vt_css_eq v⟩
  rcases lt_or_le v (-5) with h5 | h5
  · rw [cmc_insoluble v h5, cls_insoluble v h5]; rfl
  rcases lt_or_le v (-3) with h3 | h3
  · rw [cmc_poor v h5 h3, cls_poor v h5 h3]; rfl
  rcases lt_or_le v (-1) with hm | hm
  · rw [cmc_moderate v h3 hm, cls_moderate v h3 hm]; rfl
  rcases lt_or_le v (1/2) with hg | hg
  · rw [cmc_good v hm (le_of_lt hg), cls_good v hm hg]; rfl
  have hgt : 1/2 < v := lt_of_le_of_ne hg (fun he => h he.symm)
  rw [cmc_excellent v hgt, cls_excellent v hg]; rfl

/-- C2 witness: the amended agreement instantiated at logS = -5. -/
theorem classifiers_agree_off_half_witness :
    (Constants.getCMCStatus (-5)).label =
      SolubilityUtils.getSolubilityClassification (-5) :=
  (classifiers_agree_off_half (-5) (by norm_num)).1

end ClassifierTheorems

section ParseNumberTheorems

/-- C9 counterexample: parseNumber applied to the string "Infinity"
returns positive infinity, which is not a finite float, so the helper does
not always return a parsed finite float on non-null inputs. -/
theorem parseNumber_infinity_not_finite :
    PredictRoute.parseNumber (JsValue.str "Infinity") = some JSNum.posInf ∧
    JSNum.isFinite JSNum.posInf = false := by
  constructor <;> rfl

/-- C9 amended: parseNumber is total and never returns NaN; it returns
null exactly when the input is null, undefined, the empty string, or a
value whose parseFloat conversion is NaN (in particular a string that does
not parse to a number), and otherwise it returns the parsed float, which
is never NaN but may be infinite. -/
theorem parseNumber_spec (v : JsValue) :
    PredictRoute.parseNumber v ≠ some JSNum.nan ∧
    (PredictRoute.parseNumber v = none ↔
      v = JsValue.null ∨ v = JsValue.undefined ∨ v = JsValue.str "" ∨
        parseFloatJS v = JSNum.nan) ∧
    (PredictRoute.parseNumber v = none ∨
      PredictRoute.parseNumber v = some (parseFloatJS v)) := by
  unfold PredictRoute.parseNumber
  split_ifs with h
  · refine ⟨by simp, ⟨fun _ => ?_, fun _ => rfl⟩, Or.inl rfl⟩
    tauto
  · rcases heq : parseFloatJS v with _ | _ | _ | q <;> simp_all

end ParseNumberTheorems

section PredictRouteTheorems

/-- Helper: parseFloat of the literal default temperature string. -/
lemma parseFloat_29815 : parseFloatStr "298.15" = JSNum.fin (5963/20) := by
  have h : parseFloatStr "298.15" =
      JSNum.fin ((298 : ℚ) + (15 : ℚ) / (10 : ℚ) ^ (2 : ℕ)) := rfl
  rw [h]
  norm_num

/-- C5 counterexample: a CSV row with no temperature field at all is not
rejected by the predict route: the payload construction is a total map
with no error path, and the built query carries the silently substituted
default temperature 298.15 K. -/
theorem temperature_defaulted_not_rejected :
    PredictRoute.backendPayload [[("Solute_SMILES", "CCO"), ("Solvent_SMILES", "O")]] =
      [{ solute_smiles := some "CCO", solvent_smiles := some "O",
         temperature_k := JSNum.fin (5963/20) }] := by
  have h : PredictRoute.backendPayload
      [[("Solute_SMILES", "CCO"), ("Solvent_SMILES", "O")]] =
      [{ solute_smiles := some "CCO", solvent_smiles := some "O",
         temperature_k := parseFloatStr "298.15" }] := rfl
  rw [h, parseFloat_29815]

/-- C5 amended: for every CSV row whose Temperature_K and temperature_k
fields are both absent or empty, the prediction query built from that row
carries the silently substituted default temperature 298.15 K; the route
performs no InvalidTemperature rejection and attaches no warning. -/
theorem buildPayloadRow_default_temperature (row : PredictRoute.CsvRow)
    (h1 : PredictRoute.csvGet row "Temperature_K" = none ∨
      PredictRoute.csvGet row "Temperature_K" = some "")
    (h2 : PredictRoute.csvGet row "temperature_k" = none ∨
      PredictRoute.csvGet row "temperature_k" = some "") :
    (PredictRoute.buildPayloadRow row).temperature_k = JSNum.fin (5963/20) := by
  have hsel : jsOrD (jsOrStr (PredictRoute.csvGet row "Temperature_K")
      (PredictRoute.csvGet row "temperature_k")) "298.15" = "298.15" := by
    rcases h1 with h1 | h1 <;> rcases h2 with h2 | h2 <;>
      simp [jsOrStr, jsOrD, h1, h2]
  show parseFloatStr (jsOrD (jsOrStr (PredictRoute.csvGet row "Temperature_K")
      (PredictRoute.csvGet row "temperature_k")) "298.15") = JSNum.fin (5963/20)
  rw [hsel, parseFloat_29815]

/-- C5 witness: the amended statement applied to the empty CSV row. -/
theorem buildPayloadRow_default_temperature_witness :
    (PredictRoute.buildPayloadRow ([] : PredictRoute.CsvRow)).temperature_k =
      JSNum.fin (5963/20) :=
  buildPayloadRow_default_temperature ([] : PredictRoute.CsvRow)
    (Or.inl rfl) (Or.inl rfl)

/-- Helper: index-general specification of the merge walk: when every
index reached stays inside the payload array, the walk produces one merged
row per prediction, in order. -/
lemma mergeGo_spec (csv : List PredictRoute.CsvRow)
    (ps : List PredictRoute.Pred) :
    ∀ i : ℕ, i + ps.length ≤ csv.length →
      ∃ out, PredictRoute.mergeGo csv (PredictRoute.backendPayload csv) ps i = some out ∧
        out.length = ps.length ∧
        ∀ j p r, ps.get? j = some p → csv.get? (i + j) = some r →
          out.get? j = some (PredictRoute.mergeRow p r (PredictRoute.buildPayloadRow r)) := by
  induction ps with
  | nil =>
    intro i _
    exact ⟨[], rfl, rfl, fun j p r hp _ => by simp at hp⟩
  | cons p ps ih =>
    intro i h
    have hi : i < csv.length := by
      simp only [List.length_cons] at h; omega
    obtain ⟨r0, hr0⟩ : ∃ r0, csv.get? i = some r0 := by
      rw [List.get?_eq_get hi]; exact ⟨_, rfl⟩
    have hpay : (PredictRoute.backendPayload csv).get? i =
        some (PredictRoute.buildPayloadRow r0) := by
      rw [PredictRoute.backendPayload, List.get?_map, hr0]; rfl
    obtain ⟨out, hout, hlen, hidx⟩ := ih (i + 1)
      (by simp only [List.length_cons] at h; omega)
    refine ⟨PredictRoute.mergeRow p r0 (PredictRoute.buildPayloadRow r0) :: out,
      ?_, by simp [hlen], ?_⟩
    · rw [PredictRoute.mergeGo, hpay, hout]
      have hx : csv[i]? = some r0 := by
        rw [← List.get?_eq_getElem?]; exact hr0
      simp [hx]
    · intro j q r hq hr
      cases j with
      | zero =>
        simp only [List.get?] at hq
        rw [Nat.add_zero] at hr
        rw [hr0] at hr
        cases hq; cases hr; rfl
      | succ j =>
        simp only [List.get?] at hq ⊢
        have harith : i + (j + 1) = (i + 1) + j := by omega
        rw [harith] at hr
        exact hidx j q r hq hr

/-- C4: when the model service returns at most as many predictions as
there are parsed CSV rows (the backend contract guarantees equal length
and order), the merged response of the predict route is an array of
exactly one row per prediction, in the same order, row i merging
prediction i with CSV row i and payload row i; no row is dropped,
duplicated or reordered. -/
theorem mergedData_spec (preds : List PredictRoute.Pred)
    (csv : List PredictRoute.CsvRow) (h : preds.length ≤ csv.length) :
    ∃ out, PredictRoute.mergedData preds csv = some out ∧
      out.length = preds.length ∧
      ∀ i p r, preds.get? i = some p → csv.get? i = some r →
        out.get? i = some (PredictRoute.mergeRow p r (PredictRoute.buildPayloadRow r)) := by
  obtain ⟨out, h1, h2, h3⟩ := mergeGo_spec csv preds 0 (by omega)
  exact ⟨out, h1, h2, fun i p r hp hr => h3 i p r hp (by simpa using hr)⟩

/-- C4 witness: the merge specification applied to one prediction and one
CSV row. -/
theorem mergedData_spec_witness :
    ∃ out, PredictRoute.mergedData
        [{ predicted_logs := -2, temperature_k := 300, warning := none }]
        [[("Solute_SMILES", "CCO")]] = some out ∧
      out.length = 1 := by
  obtain ⟨out, h1, h2, -⟩ := mergedData_spec
    [{ predicted_logs := -2, temperature_k := 300, warning := none }]
    [[("Solute_SMILES", "CCO")]] (by decide)
  exact ⟨out, h1, h2⟩

end PredictRouteTheorems

section StableSortLemmas

variable {α : Type} {β : Type} [LinearOrder β]

lemma insertKey_perm (κ : α → β) (x : α) (l : List α) :
    List.Perm (insertKey κ x l) (x :: l) := by
  induction l with
  | nil => simp [insertKey]
  | cons y ys ih =>
    rw [insertKey]
    split_ifs
    · exact ((ih.cons y).trans (List.Perm.swap x y ys))
    · rfl

lemma isortKey_perm (κ : α → β) (l : List α) : List.Perm (isortKey κ l) l := by
  induction l with
  | nil => rfl
  | cons x xs ih => exact (insertKey_perm κ x (isortKey κ xs)).trans (ih.cons x)

lemma isortKey_length (κ : α → β) (l : List α) :
    (isortKey κ l).length = l.length :=
  (isortKey_perm κ l).length_eq

lemma mem_insertKey (κ : α → β) (x a : α) (l : List α) :
    a ∈ insertKey κ x l ↔ a = x ∨ a ∈ l := by
  rw [(insertKey_perm κ x l).mem_iff, List.mem_cons]

lemma pairwise_insertKey (κ : α → β) (x : α) (l : List α)
    (h : l.Pairwise (fun a b => κ a ≤ κ b)) :
    (insertKey κ x l).Pairwise (fun a b => κ a ≤ κ b) := by
  induction l with
  | nil => simp [insertKey]
  | cons y ys ih =>
    rw [List.pairwise_cons] at h
    rw [insertKey]
    split_ifs with hlt
    · refine List.Pairwise.cons ?_ (ih h.2)
      intro z hz
      rcases (mem_insertKey κ x z ys).mp hz with hz | hz
      · exact hz ▸ le_of_lt hlt
      · exact h.1 z hz
    · refine List.Pairwise.cons ?_ (List.Pairwise.cons h.1 h.2)
      intro z hz
      rcases List.mem_cons.mp hz with hz | hz
      · exact hz ▸ le_of_not_lt hlt
      · exact le_trans (le_of_not_lt hlt) (h.1 z hz)

lemma pairwise_isortKey (κ : α → β) (l : List α) :
    (isortKey κ l).Pairwise (fun a b => κ a ≤ κ b) := by
  induction l with
  | nil => simp [isortKey]
  | cons x xs ih => exact pairwise_insertKey κ x (isortKey κ xs) ih

lemma filter_insertKey_pos (κ : α → β) (x : α) (l : List α) (p : α → Bool)
    (hx : p x = true) (hlt : ∀ y, p y = true → ¬ κ y < κ x) :
    (insertKey κ x l).filter p = x :: l.filter p := by
  induction l with
  | nil => simp [insertKey, hx]
  | cons y ys ih =>
    rw [insertKey]
    split_ifs with h
    · have hpy : p y = false := by
        cases hp : p y
        · rfl
        · exact absurd h (hlt y hp)
      rw [List.filter_cons, List.filter_cons]
      simp only [hpy]
      exact ih
    · rw [List.filter_cons, hx]
      simp

lemma filter_insertKey_neg (κ : α → β) (x : α) (l : List α) (p : α → Bool)
    (hx : p x = false) :
    (insertKey κ x l).filter p = l.filter p := by
  induction l with
  | nil => simp [insertKey, hx]
  | cons y ys ih =>
    rw [insertKey]
    split_ifs with h
    · rw [List.filter_cons, List.filter_cons]
      cases hp : p y <;> simp [hp, ih]
    · rw [List.filter_cons, hx]
      simp

/-- Stability of the modelled sort: for any predicate that holds only on
mutually incomparable elements (such as sharing one key value), filtering
the sorted list gives exactly the filtered input, in input order. -/
lemma filter_isortKey (κ : α → β) (l : List α) (p : α → Bool)
    (hp : ∀ a b, p a = true → p b = true → ¬ κ a < κ b) :
    (isortKey κ l).filter p = l.filter p := by
  induction l with
  | nil => rfl
  | cons x xs ih =>
    rw [isortKey]
    cases hx : p x
    · rw [filter_insertKey_neg κ x (isortKey κ xs) p hx, ih, List.filter_cons]
      simp [hx]
    · rw [filter_insertKey_pos κ x (isortKey κ xs) p hx
        (fun y hy => hp y x hy hx), ih, List.filter_cons]
      simp [hx]


end StableSortLemmas

section ViewToggleTheorems

lemma attachRanks_length (n : ℕ) (l : List ViewToggle.Row) :
    (ViewToggle.attachRanks n l).length = l.length := by
  induction l generalizing n with
  | nil => rfl
  | cons r rs ih => simp [ViewToggle.attachRanks, ih]

lemma attachRanks_map_toRow (n : ℕ) (l : List ViewToggle.Row) :
    (ViewToggle.attachRanks n l).map (fun x => x.toRow) = l := by
  induction l generalizing n with
  | nil => rfl
  | cons r rs ih => simp [ViewToggle.attachRanks, ih]

lemma attachRanks_map_rank (n : ℕ) (l : List ViewToggle.Row) :
    (ViewToggle.attachRanks n l).map (fun x => x.rank) =
      List.range' (n + 1) l.length := by
  induction l generalizing n with
  | nil => rfl
  | cons r rs ih => simp [ViewToggle.attachRanks, List.range'_succ, ih]

/-- Helper: with populated heatmap data, filteredRankings is the ranked,
sorted, NaN-filtered row list. -/
lemma filteredRankings_eq (res : ViewToggle.ScreeningResult) (tempKey : String)
    (h t' : _) (hhd : res.heatmap_data = some (h :: t')) :
    ViewToggle.filteredRankings res tempKey =
      ViewToggle.attachRanks 0 (isortKey ViewToggle.sortKeyDesc
        (ViewToggle.rankingsWithLogS res tempKey)) := by
  rw [ViewToggle.filteredRankings, hhd]

/-- C3: for every screening result with populated heatmap data, the
single-temperature list produced by filteredRankings is sorted in
non-increasing order of predicted LogS, its rank fields are exactly 1..N
in list order, rows with equal predicted LogS keep their relative heatmap
order (sorting is stable), and when all 20 heatmap rows carry a non-NaN
value at the selected temperature the list has exactly 20 entries, so the
ranks are a permutation of 1..20. -/
theorem filteredRankings_spec (res : ViewToggle.ScreeningResult)
    (tempKey : String) (hd : List ViewToggle.HeatRow)
    (hhd : res.heatmap_data = some hd) (hne : hd ≠ []) :
    ((ViewToggle.filteredRankings res tempKey).Pairwise
      (fun a b => b.predicted_logs.key ≤ a.predicted_logs.key)) ∧
    ((ViewToggle.filteredRankings res tempKey).map (fun r => r.rank) =
      List.range' 1 (ViewToggle.filteredRankings res tempKey).length) ∧
    (∀ k : WithBot (WithTop ℚ),
      ((ViewToggle.filteredRankings res tempKey).map (fun r => r.toRow)).filter
          (fun r => decide (r.predicted_logs.key = k)) =
        (ViewToggle.rankingsWithLogS res tempKey).filter
          (fun r => decide (r.predicted_logs.key = k))) ∧
    (hd.length = 20 →
      (∀ item ∈ hd, (ViewToggle.extractLogS item tempKey).isNaN = false) →
      (ViewToggle.filteredRankings res tempKey).length = 20) := by
  obtain ⟨h, t', rfl⟩ : ∃ h t', hd = h :: t' := by
    cases hd with
    | nil => exact absurd rfl hne
    | cons h t' => exact ⟨h, t', rfl⟩
  have hfr := filteredRankings_eq res tempKey h t' hhd
  refine ⟨?_, ?_, ?_, ?_⟩
  · have hsorted := pairwise_isortKey ViewToggle.sortKeyDesc
      (ViewToggle.rankingsWithLogS res tempKey)
    have himp : (isortKey ViewToggle.sortKeyDesc
        (ViewToggle.rankingsWithLogS res tempKey)).Pairwise
        (fun a b => b.predicted_logs.key ≤ a.predicted_logs.key) := by
      refine hsorted.imp ?_
      intro a b hab
      exact OrderDual.toDual_le_toDual.mp hab
    rw [hfr]
    rw [← attachRanks_map_toRow 0 (isortKey ViewToggle.sortKeyDesc
      (ViewToggle.rankingsWithLogS res tempKey))] at himp
    exact List.pairwise_map.mp himp
  · rw [hfr, attachRanks_map_rank, attachRanks_length]
  · intro k
    rw [hfr, attachRanks_map_toRow]
    refine filter_isortKey ViewToggle.sortKeyDesc
      (ViewToggle.rankingsWithLogS res tempKey) _ ?_
    intro a b ha hb
    have ha' : a.predicted_logs.key = k := of_decide_eq_true ha
    have hb' : b.predicted_logs.key = k := of_decide_eq_true hb
    intro hlt
    rw [ViewToggle.sortKeyDesc, ViewToggle.sortKeyDesc,
      OrderDual.toDual_lt_toDual, ha', hb'] at hlt
    exact lt_irrefl k hlt
  · intro hlen hnan
    rw [hfr, attachRanks_length, isortKey_length]
    rw [ViewToggle.rankingsWithLogS]
    have hall : ∀ r ∈ (res.heatmap_data.getD []).map
        (ViewToggle.mkRow (ViewToggle.mkRankingsMap (res.rankings.getD []))
          tempKey), (!r.predicted_logs.isNaN) = true := by
      intro r hr
      obtain ⟨item, hitem, rfl⟩ := List.mem_map.mp hr
      have : (ViewToggle.mkRow (ViewToggle.mkRankingsMap (res.rankings.getD []))
          tempKey item).predicted_logs = ViewToggle.extractLogS item tempKey := rfl
      rw [this]
      rw [hhd] at hitem
      simp only [Option.getD_some] at hitem
      rw [hnan item hitem]
      rfl
    rw [List.filter_eq_self.mpr hall, List.length_map, hhd]
    simpa using hlen

/-- C6: when the response supplies no temperatures field and no populated
heatmap data, availableTemperatures is the default grid of exactly 21
points 250, 260, ..., 450 Kelvin in strictly increasing order. -/
theorem availableTemperatures_default (res : ViewToggle.ScreeningResult)
    (ht : res.temperatures = none)
    (hh : res.heatmap_data = none ∨ res.heatmap_data = some []) :
    ViewToggle.availableTemperatures res =
      (List.range 21).map (fun i => JSNum.fin ((250 + i * 10 : ℕ) : ℚ)) ∧
    (List.range 21).map (fun i => JSNum.fin ((250 + i * 10 : ℕ) : ℚ)) =
      [JSNum.fin 250, JSNum.fin 260, JSNum.fin 270, JSNum.fin 280,
       JSNum.fin 290, JSNum.fin 300, JSNum.fin 310, JSNum.fin 320,
       JSNum.fin 330, JSNum.fin 340, JSNum.fin 350, JSNum.fin 360,
       JSNum.fin 370, JSNum.fin 380, JSNum.fin 390, JSNum.fin 400,
       JSNum.fin 410, JSNum.fin 420, JSNum.fin 430, JSNum.fin 440,
       JSNum.fin 450] ∧
    ((List.range 21).map (fun i => JSNum.fin ((250 + i * 10 : ℕ) : ℚ))).length
      = 21 ∧
    ((List.range 21).map (fun i => JSNum.fin ((250 + i * 10 : ℕ) : ℚ))).Pairwise
      (fun a b => a.key < b.key) := by
  refine ⟨?_, by decide, by decide, by decide⟩
  rcases hh with hh | hh <;> rw [ViewToggle.availableTemperatures, ht, hh]

end ViewToggleTheorems

/-- C3 witness: the ranking specification applied to the concrete panel:
the ranks are exactly 1..N and the full 20-solvent panel yields 20 rows. -/
theorem filteredRankings_spec_witness :
    (ViewToggle.filteredRankings w3res "300").map (fun r => r.rank) =
      List.range' 1 (ViewToggle.filteredRankings w3res "300").length ∧
    (ViewToggle.filteredRankings w3res "300").length = 20 := by
  obtain ⟨-, h2, -, h4⟩ := filteredRankings_spec w3res "300" w3hd rfl (by decide)
  exact ⟨h2, h4 (by decide) (by decide)⟩


/-- C6 witness: the default grid evaluated on the concrete response. -/
theorem availableTemperatures_default_witness :
    ViewToggle.availableTemperatures w6res =
      [JSNum.fin 250, JSNum.fin 260, JSNum.fin 270, JSNum.fin 280,
       JSNum.fin 290, JSNum.fin 300, JSNum.fin 310, JSNum.fin 320,
       JSNum.fin 330, JSNum.fin 340, JSNum.fin 350, JSNum.fin 360,
       JSNum.fin 370, JSNum.fin 380, JSNum.fin 390, JSNum.fin 400,
       JSNum.fin 410, JSNum.fin 420, JSNum.fin 430, JSNum.fin 440,
       JSNum.fin 450] := by
  obtain ⟨h1, h2, -, -⟩ := availableTemperatures_default w6res rfl (Or.inl rfl)
  rw [h1, h2]

section RouteTheorems

/-- Helper: a key that is not among the headers is absent from rowData. -/
lemma rowGet_not_mem (headers vals : List String) (k : String)
    (hk : k ∉ headers) :
    BatchSmilesInput.rowGet (BatchSmilesInput.rowDataOf headers vals) k = none := by
  rw [BatchSmilesInput.rowGet, Option.map_eq_none', List.find?_eq_none]
  intro p hp
  have hmem : p.1 ∈ headers := by
    rw [List.mem_reverse] at hp
    clear hk
    induction headers generalizing vals with
    | nil => simp [BatchSmilesInput.rowDataOf] at hp
    | cons h hs ih =>
      cases vals with
      | nil =>
        rcases List.mem_cons.mp hp with hp | hp
        · rw [hp]; exact List.mem_cons_self h hs
        · exact List.mem_cons_of_mem h (ih [] hp)
      | cons v vs =>
        rcases List.mem_cons.mp hp with hp | hp
        · rw [hp]; exact List.mem_cons_self h hs
        · exact List.mem_cons_of_mem h (ih vs hp)
  simp only [beq_iff_eq]
  intro he
  exact hk (he ▸ hmem)

/-- C7: a screening request without a solute structure fails the whole
call with an error before any backend request: the solvents route rejects
an absent or empty solute_smiles with a 400 response and makes no backend
call, and the batch CSV screening handler throws when no recognized
solute-SMILES column is present, making no /api/solvents call. -/
theorem screening_fails_without_solute :
    (∀ body : SolventsRoute.Body,
      body.solute_smiles = none ∨ body.solute_smiles = some "" →
      SolventsRoute.post body =
        SolventsRoute.Action.respondError 400 "No solute SMILES provided") ∧
    (∀ text headers vals, BatchSmilesInput.parseFirstRow text = some (headers, vals) →
      "Solute_SMILES" ∉ headers → "solute_smiles" ∉ headers →
      "SMILES_Solute" ∉ headers →
      BatchSmilesInput.isError (BatchSmilesInput.handleProcessScreen text) = true) := by
  constructor
  · intro body hb
    rcases hb with hb | hb <;> rw [SolventsRoute.post, hb] <;> rfl
  · intro text headers vals hparse h1 h2 h3
    rw [BatchSmilesInput.handleProcessScreen, hparse]
    simp only [rowGet_not_mem headers vals _ h1, rowGet_not_mem headers vals _ h2,
      rowGet_not_mem headers vals _ h3, jsOrStr]
    rfl

/-- C7 witness: the route rejection on an empty body and the CSV handler
rejection on a CSV with no solute-SMILES column. -/
theorem screening_fails_without_solute_witness :
    SolventsRoute.post { solute_smiles := none, solute_name := none } =
      SolventsRoute.Action.respondError 400 "No solute SMILES provided" ∧
    BatchSmilesInput.isError
      (BatchSmilesInput.handleProcessScreen "Name,Value\nfoo,1") = true := by
  constructor
  · exact screening_fails_without_solute.1
      { solute_smiles := none, solute_name := none } (Or.inl rfl)
  · exact screening_fails_without_solute.2 "Name,Value\nfoo,1"
      ["Name", "Value"] ["foo", "1"] (by decide) (by decide) (by decide) (by decide)

/-- Helper: the JS test n > 0 is the complement of isNaN(n) or n <= 0. -/
lemma gt0_eq_not_nan_le0 (n : JSNum) :
    n.gt0 = !(n.isNaN || n.le0) := by
  cases n with
  | nan => rfl
  | negInf => rfl
  | posInf => rfl
  | fin q =>
    simp only [JSNum.gt0, JSNum.isNaN, JSNum.le0, Bool.false_or]
    rw [← decide_not]
    exact decide_eq_decide.mpr not_le.symm

/-- C8: with nonempty solute and solvent SMILES, the single-prediction
submission handler submits the request exactly when the temperature string
parses to a strictly positive value, and rejects with the temperature
error exactly when the parse is NaN or the parsed value is at most zero. -/
theorem handleSubmit_temperature_guard
    (soluteSmiles solventSmiles temperature : String)
    (h1 : jsTrim soluteSmiles ≠ "") (h2 : jsTrim solventSmiles ≠ "") :
    (SingleSmilesInput.handleSubmit SingleSmilesInput.Task.solpred
        soluteSmiles solventSmiles temperature = SingleSmilesInput.Outcome.submit ↔
      (parseFloatStr temperature).gt0 = true) ∧
    (SingleSmilesInput.handleSubmit SingleSmilesInput.Task.solpred
        soluteSmiles solventSmiles temperature =
          SingleSmilesInput.Outcome.errorTemperature ↔
      ((parseFloatStr temperature).isNaN || (parseFloatStr temperature).le0) = true) := by
  rw [SingleSmilesInput.handleSubmit, if_neg h1,
    if_neg (fun hc => h2 hc.2)]
  rw [gt0_eq_not_nan_le0]
  by_cases hc : ((parseFloatStr temperature).isNaN || (parseFloatStr temperature).le0) = true
  · rw [if_pos ⟨rfl, hc⟩, hc]
    constructor <;> simp
  · rw [if_neg (fun hx => hc hx.2)]
    constructor <;> constructor <;> intro hx <;> simp_all

/-- C8 witness: the guard applied to concrete inputs: temperature "300"
submits. -/
theorem handleSubmit_temperature_guard_witness :
    SingleSmilesInput.handleSubmit SingleSmilesInput.Task.solpred
      "CCO" "O" "300" = SingleSmilesInput.Outcome.submit :=
  (handleSubmit_temperature_guard "CCO" "O" "300"
    (by decide) (by decide)).1.mpr (by decide)

/-- C10: the absolute-error value of the molecule table and the one of the
Excel export agree on every row: both equal the absolute difference of
predicted and actual LogS exactly when both are present, and both are the
null marker (rendered "N/A") otherwise. -/
theorem absError_agree (predicted actual : Option ℚ) :
    MoleculeTable.absErrorValue predicted actual =
      ExcelExport.absError predicted actual ∧
    MoleculeTable.absErrorValue predicted actual =
      (match predicted, actual with
        | some p, some a => some |p - a|
        | _, _ => none) := by
  cases predicted <;> cases actual <;>
    simp [MoleculeTable.absErrorValue, ExcelExport.absError]

end RouteTheorems

/-- C9 witness: the amended parseNumber specification instantiated at the
concrete string "300". -/
theorem parseNumber_spec_witness :
    PredictRoute.parseNumber (JsValue.str "300") ≠ some JSNum.nan ∧
    (PredictRoute.parseNumber (JsValue.str "300") = none ∨
      PredictRoute.parseNumber (JsValue.str "300") =
        some (parseFloatJS (JsValue.str "300"))) :=
  ⟨(parseNumber_spec (JsValue.str "300")).1,
    (parseNumber_spec (JsValue.str "300")).2.2⟩

/-- C10 witness: the absolute-error agreement instantiated at a concrete
row with both values present. -/
theorem absError_agree_witness :
    MoleculeTable.absErrorValue (some 2) (some 1) =
      ExcelExport.absError (some 2) (some 1) :=
  (absError_agree (some 2) (some 1)).1
